import Mathlib

/-!
Verification development for the `eodhistoricaldata_api` Rust client
(`src/lib.rs`). We shallow-embed the data model (`RealTimeQuote`,
`HistoricQuote`, `Dividend`), the error taxonomy (`EodHistDataError`),
URL construction and the request/deserialization pipeline of
`EodHistConnector`, and prove the specification claims about them.

Modelling decisions:
* JSON values are an inductive `Json`; numbers are carried as `ℚ`
  (the claims never perform floating-point arithmetic, only move
  numbers between JSON and record fields).
* The network is a parameter `net : String → HttpResult` mapping the
  request URL to the transport outcome, so each query method is the
  pure composition of URL building, `send_request` and typed
  deserialization, exactly as in the source.
* serde's derived deserialization is embedded field by field:
  required fields fail when absent, `Option` fields accept absence or
  `null`, unknown fields are ignored, and the serde rename attributes
  (`previousClose`, `rename_all = "camelCase"`) determine the JSON key
  looked up for each record field.
-/

namespace EodApi

/-- JSON values as produced by `serde_json::Value`; numbers as `ℚ`. -/
inductive Json where
  | null : Json
  | bool (b : Bool) : Json
  | num (q : ℚ) : Json
  | str (s : String) : Json
  | arr (elems : List Json) : Json
  | obj (fields : List (String × Json)) : Json

/-- `chrono::NaiveDate`, restricted to the year-month-day numerals the
client formats; validity of the calendar date is irrelevant to URL
construction. -/
structure NaiveDate where
  year : Nat
  month : Nat
  day : Nat
deriving DecidableEq, Repr

/-- Zero-pad a numeral to two digits, as chrono's `%m` / `%d` do. -/
def pad2 (n : Nat) : String :=
  if n < 10 then "0" ++ toString n else toString n

/-- Zero-pad a numeral to four digits, as chrono's `%Y` does for the
years `NaiveDate` supports in this client. -/
def pad4 (n : Nat) : String :=
  if n < 10 then "000" ++ toString n
  else if n < 100 then "00" ++ toString n
  else if n < 1000 then "0" ++ toString n
  else toString n

/-- `NaiveDate::format("%Y-%m-%d")` from the source. -/
def NaiveDate.format_ymd (d : NaiveDate) : String :=
  pad4 d.year ++ "-" ++ pad2 d.month ++ "-" ++ pad2 d.day

/-- The error enum `EodHistDataError` of the source. The payloads of
`DeserializeFailed` (a `reqwest::Error`) and `ConnectionFailed`
(a `serde_json::Error`) are carried as their diagnostic messages. -/
inductive EodHistDataError where
  | FetchFailed (status : Nat) : EodHistDataError
  | DeserializeFailed (msg : String) : EodHistDataError
  | ConnectionFailed (msg : String) : EodHistDataError
deriving DecidableEq, Repr

/-- Body of a received HTTP response, as seen by `resp.json()`:
either it parses to a JSON value or it is not valid JSON. -/
inductive Body where
  | invalid (msg : String) : Body
  | json (v : Json) : Body

/-- Outcome of `reqwest::get(url)`: either the transport fails before
any response is received (DNS, connection refused, timeout — a
`reqwest::Error`), or a response with a status code and a body
arrives. -/
inductive HttpResult where
  | failed (msg : String) : HttpResult
  | response (status : Nat) (body : Body) : HttpResult

/-- The connector struct of the source: fixed base URL plus the
caller-supplied API token. -/
structure EodHistConnector where
  url : String
  api_token : String
deriving DecidableEq, Repr

/-- `EodHistConnector::new`. -/
def EodHistConnector.new (token : String) : EodHistConnector :=
  { url := "https://eodhistoricaldata.com/api", api_token := token }

/-- URL built by `get_latest_quote`:
`format!("{}/real-time/{}?api_token={}&fmt=json", self.url, ticker, self.api_token)`. -/
def EodHistConnector.latest_quote_url (c : EodHistConnector) (ticker : String) : String :=
  c.url ++ "/real-time/" ++ ticker ++ "?api_token=" ++ c.api_token ++ "&fmt=json"

/-- URL built by `get_quote_history`:
`format!("{}/eod/{}?from={}&to={}&api_token={}&period=d&fmt=json", ...)`
with both dates rendered by `%Y-%m-%d`. -/
def EodHistConnector.quote_history_url (c : EodHistConnector) (ticker : String)
    (start end_ : NaiveDate) : String :=
  c.url ++ "/eod/" ++ ticker ++ "?from=" ++ start.format_ymd ++ "&to=" ++
    end_.format_ymd ++ "&api_token=" ++ c.api_token ++ "&period=d&fmt=json"

/-- URL built by `get_dividend_history`:
`format!("{}/div/{}?from={}&api_token={}&fmt=json", ...)`. -/
def EodHistConnector.dividend_history_url (c : EodHistConnector) (ticker : String)
    (start : NaiveDate) : String :=
  c.url ++ "/div/" ++ ticker ++ "?from=" ++ start.format_ymd ++ "&api_token=" ++
    c.api_token ++ "&fmt=json"

/-- `EodHistConnector::send_request`: perform the GET; on transport
failure the `?` on `reqwest::get` converts the `reqwest::Error` via
`#[from]` into `DeserializeFailed`; on status 200 parse the body
(`resp.json()`, whose `reqwest::Error` likewise becomes
`DeserializeFailed`); on any other status return `FetchFailed` with
that status. -/
def send_request (outcome : HttpResult) : Except EodHistDataError Json :=
  match outcome with
  | .failed msg => .error (.DeserializeFailed msg)
  | .response status body =>
      if status = 200 then
        match body with
        | .invalid msg => .error (.DeserializeFailed msg)
        | .json v => .ok v
      else .error (.FetchFailed status)

/-! ### Typed records and their serde deserialization -/

/-- `RealTimeQuote` of the source: all fields required; the JSON key
for `previous_close` is `previousClose` (serde `rename`), every other
field keeps its name. -/
structure RealTimeQuote where
  code : String
  timestamp : Nat
  gmtoffset : Int
  «open» : ℚ
  high : ℚ
  low : ℚ
  close : ℚ
  volume : Nat
  previous_close : ℚ
  change : ℚ
  change_p : ℚ
deriving DecidableEq, Repr

/-- `HistoricQuote` of the source: `date` and `adjusted_close`
required, `open`/`high`/`low`/`close`/`volume` optional. -/
structure HistoricQuote where
  date : String
  «open» : Option ℚ
  high : Option ℚ
  low : Option ℚ
  close : Option ℚ
  adjusted_close : ℚ
  volume : Option Nat
deriving DecidableEq, Repr

/-- `Dividend` of the source; serde `rename_all = "camelCase"` makes
the JSON keys `declarationDate`, `paymentDate`, `recordDate`,
`unadjustedValue` for the underscore-separated fields, and leaves the
single-word fields unchanged. -/
structure Dividend where
  currency : String
  date : String
  declaration_date : Option String
  payment_date : String
  period : String
  record_date : String
  unadjusted_value : ℚ
  value : ℚ
deriving DecidableEq, Repr

/-- First value bound to `key` in a JSON object, as serde's field
lookup sees it. -/
def getField (fields : List (String × Json)) (key : String) : Option Json :=
  (fields.find? (fun p => p.1 == key)).map (fun p => p.2)

/-- Deserialize a JSON value as a Rust `String`. -/
def decString : Json → Except String String
  | .str s => .ok s
  | _ => .error "invalid type: expected a string"

/-- Deserialize a JSON value as a Rust `f64` (any JSON number). -/
def decF64 : Json → Except String ℚ
  | .num q => .ok q
  | _ => .error "invalid type: expected f64"

/-- Deserialize a JSON value as a Rust unsigned integer
(`u64`/`usize`): a JSON number that is a non-negative integer. -/
def decUnsigned : Json → Except String Nat
  | .num q => if q.den = 1 ∧ 0 ≤ q.num then .ok q.num.toNat
              else .error "invalid type: expected an unsigned integer"
  | _ => .error "invalid type: expected an unsigned integer"

/-- Deserialize a JSON value as a Rust signed integer (`i32`). -/
def decSigned : Json → Except String Int
  | .num q => if q.den = 1 then .ok q.num
              else .error "invalid type: expected an integer"
  | _ => .error "invalid type: expected an integer"

/-- A required struct field: absence is a `missing field` error,
otherwise the value decoder runs (serde derive semantics). -/
def decReq (d : Json → Except String α) (fields : List (String × Json))
    (key : String) : Except String α :=
  match getField fields key with
  | none => .error ("missing field " ++ key)
  | some v => d v

/-- An `Option` struct field: absence and `null` both give `none`
(serde derive semantics for `Option<T>`). -/
def decOpt (d : Json → Except String α) (fields : List (String × Json))
    (key : String) : Except String (Option α) :=
  match getField fields key with
  | none => .ok none
  | some .null => .ok none
  | some v => (d v).map some

/-- `serde_json::from_value::<RealTimeQuote>`. -/
def RealTimeQuote.from_value : Json → Except String RealTimeQuote
  | .obj fields => do
      let code ← decReq decString fields "code"
      let timestamp ← decReq decUnsigned fields "timestamp"
      let gmtoffset ← decReq decSigned fields "gmtoffset"
      let open_ ← decReq decF64 fields "open"
      let high ← decReq decF64 fields "high"
      let low ← decReq decF64 fields "low"
      let close ← decReq decF64 fields "close"
      let volume ← decReq decUnsigned fields "volume"
      let previous_close ← decReq decF64 fields "previousClose"
      let change ← decReq decF64 fields "change"
      let change_p ← decReq decF64 fields "change_p"
      pure ⟨code, timestamp, gmtoffset, open_, high, low, close, volume,
        previous_close, change, change_p⟩
  | _ => .error "invalid type: expected struct RealTimeQuote"

/-- `serde_json::from_value::<HistoricQuote>`. -/
def HistoricQuote.from_value : Json → Except String HistoricQuote
  | .obj fields => do
      let date ← decReq decString fields "date"
      let open_ ← decOpt decF64 fields "open"
      let high ← decOpt decF64 fields "high"
      let low ← decOpt decF64 fields "low"
      let close ← decOpt decF64 fields "close"
      let adjusted_close ← decReq decF64 fields "adjusted_close"
      let volume ← decOpt decUnsigned fields "volume"
      pure ⟨date, open_, high, low, close, adjusted_close, volume⟩
  | _ => .error "invalid type: expected struct HistoricQuote"

/-- `serde_json::from_value::<Dividend>` (camelCase keys). -/
def Dividend.from_value : Json → Except String Dividend
  | .obj fields => do
      let currency ← decReq decString fields "currency"
      let date ← decReq decString fields "date"
      let declaration_date ← decOpt decString fields "declarationDate"
      let payment_date ← decReq decString fields "paymentDate"
      let period ← decReq decString fields "period"
      let record_date ← decReq decString fields "recordDate"
      let unadjusted_value ← decReq decF64 fields "unadjustedValue"
      let value ← decReq decF64 fields "value"
      pure ⟨currency, date, declaration_date, payment_date, period,
        record_date, unadjusted_value, value⟩
  | _ => .error "invalid type: expected struct Dividend"

/-- `serde_json::from_value::<Vec<T>>`: the value must be an array and
every element must deserialize. -/
def decVec (d : Json → Except String α) : Json → Except String (List α)
  | .arr elems => elems.mapM d
  | _ => .error "invalid type: expected a sequence"

/-! ### The three query methods

Each takes the transport as a function `net` from the URL to the
`HttpResult` of `reqwest::get` on it. The final
`serde_json::from_value(resp)?` converts its `serde_json::Error` via
`#[from]` into `ConnectionFailed`. -/

/-- `EodHistConnector::get_latest_quote`. -/
def EodHistConnector.get_latest_quote (c : EodHistConnector)
    (net : String → HttpResult) (ticker : String) :
    Except EodHistDataError RealTimeQuote := do
  let url := c.latest_quote_url ticker
  let resp ← send_request (net url)
  match RealTimeQuote.from_value resp with
  | .ok quote => .ok quote
  | .error e => .error (.ConnectionFailed e)

/-- `EodHistConnector::get_quote_history`. -/
def EodHistConnector.get_quote_history (c : EodHistConnector)
    (net : String → HttpResult) (ticker : String) (start end_ : NaiveDate) :
    Except EodHistDataError (List HistoricQuote) := do
  let url := c.quote_history_url ticker start end_
  let resp ← send_request (net url)
  match decVec HistoricQuote.from_value resp with
  | .ok quotes => .ok quotes
  | .error e => .error (.ConnectionFailed e)

/-- `EodHistConnector::get_dividend_history`. -/
def EodHistConnector.get_dividend_history (c : EodHistConnector)
    (net : String → HttpResult) (ticker : String) (start : NaiveDate) :
    Except EodHistDataError (List Dividend) := do
  let url := c.dividend_history_url ticker start
  let resp ← send_request (net url)
  match decVec Dividend.from_value resp with
  | .ok dividends => .ok dividends
  | .error e => .error (.ConnectionFailed e)

/-! ### Spec-side URL templates (for the refinement claims) -/

/-- The spec's URL template for the quote history endpoint, written
from its words: base `https://eodhistoricaldata.com/api`, then
`/eod/{ticker}?from={start}&to={end}&api_token={token}&period=d&fmt=json`
with both dates as zero-padded `YYYY-MM-DD`. -/
def spec_quote_history_url (token ticker : String) (start end_ : NaiveDate) : String :=
  "https://eodhistoricaldata.com/api/eod/" ++ ticker ++ "?from=" ++
    start.format_ymd ++ "&to=" ++ end_.format_ymd ++ "&api_token=" ++ token ++
    "&period=d&fmt=json"

/-- The spec's URL template for the dividend endpoint, written from
its words: `{base}/div/{ticker}?from={start}&api_token={token}&fmt=json`
— open-ended, with no `to` and no `period` parameter. -/
def spec_dividend_history_url (token ticker : String) (start : NaiveDate) : String :=
  "https://eodhistoricaldata.com/api/div/" ++ ticker ++ "?from=" ++
    start.format_ymd ++ "&api_token=" ++ token ++ "&fmt=json"

/-! ### Helper lemmas -/

theorem eod_error_bind (e : ε) (f : α → Except ε β) :
    (Except.error e >>= f) = Except.error e := rfl

theorem eod_ok_bind (a : α) (f : α → Except ε β) :
    (Except.ok a >>= f) = f a := rfl

/-- If the scrutinee of an `Except` bind either errors itself or its
continuation errors on the delivered value, the bind errors. -/
theorem eod_exists_error_bind (x : Except ε α) (f : α → Except ε β)
    (h : ∀ a, x = .ok a → ∃ e, f a = .error e) :
    ∃ e, (x >>= f) = .error e := by
  cases x with
  | error e => exact ⟨e, rfl⟩
  | ok a => simpa [eod_ok_bind] using h a rfl

/-- An `Option ℚ`-shaped field (absent or numeric) always decodes. -/
theorem decOpt_f64_ok (fields : List (String × Json)) (key : String)
    (h : getField fields key = none ∨ ∃ r : ℚ, getField fields key = some (.num r)) :
    ∃ o, decOpt decF64 fields key = .ok o := by
  rcases h with h | ⟨r, h⟩ <;> simp [decOpt, h, decF64, Except.map]

/-- An `Option Nat`-shaped field (absent or a natural number) always
decodes. -/
theorem decOpt_unsigned_ok (fields : List (String × Json)) (key : String)
    (h : getField fields key = none ∨ ∃ n : Nat, getField fields key = some (.num n)) :
    ∃ o, decOpt decUnsigned fields key = .ok o := by
  rcases h with h | ⟨n, h⟩ <;> simp [decOpt, h, decUnsigned, Except.map]

/-! ### Claim theorems -/

/-- C1: the claim says a transport-level failure (no HTTP response
received) makes each query method return the `ConnectionFailed`
variant. The code does the opposite: the `#[from] reqwest::Error`
conversion is attached to `DeserializeFailed`, so all three methods
return `DeserializeFailed` on a transport failure — here evaluated at
a connection-refused failure for each method. -/
theorem c1_transport_failure_gives_DeserializeFailed :
    (EodHistConnector.new "T").get_latest_quote
        (fun _ => .failed "connection refused") "AAPL.US"
      = .error (.DeserializeFailed "connection refused")
  ∧ (EodHistConnector.new "T").get_quote_history
        (fun _ => .failed "connection refused") "AAPL.US"
        ⟨2020, 1, 1⟩ ⟨2020, 1, 31⟩
      = .error (.DeserializeFailed "connection refused")
  ∧ (EodHistConnector.new "T").get_dividend_history
        (fun _ => .failed "connection refused") "AAPL.US" ⟨2020, 1, 1⟩
      = .error (.DeserializeFailed "connection refused") :=
  ⟨rfl, rfl, rfl⟩

/-- C2: the claim says a 200 response whose body is valid JSON but of
the wrong shape yields `DeserializeFailed`. The code maps the
`serde_json::Error` of `serde_json::from_value` via `#[from]` to
`ConnectionFailed` instead: evaluated here at a 200 response whose
body is the valid JSON `[]` while `get_latest_quote` expects an
object, and at `42` while `get_quote_history` expects an array. (Only
the not-valid-JSON half of the claim holds: `resp.json()` fails with
a `reqwest::Error`, which lands on `DeserializeFailed`.) -/
theorem c2_shape_mismatch_gives_ConnectionFailed :
    (EodHistConnector.new "T").get_latest_quote
        (fun _ => .response 200 (.json (.arr []))) "AAPL.US"
      = .error (.ConnectionFailed "invalid type: expected struct RealTimeQuote")
  ∧ (EodHistConnector.new "T").get_quote_history
        (fun _ => .response 200 (.json (.num 42))) "AAPL.US"
        ⟨2020, 1, 1⟩ ⟨2020, 1, 31⟩
      = .error (.ConnectionFailed "invalid type: expected a sequence")
  ∧ (EodHistConnector.new "T").get_latest_quote
        (fun _ => .response 200 (.invalid "EOF while parsing a value")) "AAPL.US"
      = .error (.DeserializeFailed "EOF while parsing a value") :=
  ⟨rfl, rfl, rfl⟩

/-- C3: whenever the upstream answers with any status other than 200
— whatever the body — each query method returns `FetchFailed`
carrying exactly that status code, never a deserialize error. -/
theorem c3_non_200_gives_FetchFailed (token ticker : String)
    (start end_ : NaiveDate) (net : String → HttpResult)
    (status : Nat) (body : Body) (hs : status ≠ 200)
    (hnet : ∀ url, net url = .response status body) :
    (EodHistConnector.new token).get_latest_quote net ticker
      = .error (.FetchFailed status)
  ∧ (EodHistConnector.new token).get_quote_history net ticker start end_
      = .error (.FetchFailed status)
  ∧ (EodHistConnector.new token).get_dividend_history net ticker start
      = .error (.FetchFailed status) := by
  have hsr : ∀ url, send_request (net url) = .error (.FetchFailed status) := by
    intro url
    rw [hnet url]
    simp [send_request, hs]
  refine ⟨?_, ?_, ?_⟩ <;>
    simp [EodHistConnector.get_latest_quote, EodHistConnector.get_quote_history,
      EodHistConnector.get_dividend_history, hsr, eod_error_bind]

/-- C3 witness: an expired-token style 403 with an HTML error body. -/
theorem c3_non_200_gives_FetchFailed_witness :
    (EodHistConnector.new "expired").get_latest_quote
        (fun _ => .response 403 (.invalid "html body")) "AAPL.US"
      = .error (.FetchFailed 403)
  ∧ (EodHistConnector.new "expired").get_quote_history
        (fun _ => .response 403 (.invalid "html body")) "AAPL.US"
        ⟨2020, 1, 1⟩ ⟨2020, 1, 31⟩
      = .error (.FetchFailed 403)
  ∧ (EodHistConnector.new "expired").get_dividend_history
        (fun _ => .response 403 (.invalid "html body")) "AAPL.US" ⟨2020, 1, 1⟩
      = .error (.FetchFailed 403) :=
  c3_non_200_gives_FetchFailed "expired" "AAPL.US" ⟨2020, 1, 1⟩ ⟨2020, 1, 31⟩
    (fun _ => .response 403 (.invalid "html body")) 403 (.invalid "html body")
    (by decide) (fun _ => rfl)

/-- C4: for every token, ticker and pair of dates, the URL built by
`get_quote_history` on a connector constructed with that token is
exactly the spec's template over the fixed base URL, and the date
formatting is zero-padded `YYYY-MM-DD` (checked on the spec's own
example date 2020-01-01). -/
theorem c4_quote_history_url_matches_template (token ticker : String)
    (start end_ : NaiveDate) :
    (EodHistConnector.new token).quote_history_url ticker start end_
      = spec_quote_history_url token ticker start end_
  ∧ (NaiveDate.mk 2020 1 1).format_ymd = "2020-01-01" :=
  ⟨rfl, rfl⟩

/-- C5: deserializing a `HistoricQuote` succeeds for every JSON
object carrying a string `date` and a numeric `adjusted_close`, with
each of `open`, `high`, `low`, `close` either absent or numeric and
`volume` either absent or a natural number — and the resulting record
holds exactly that date and adjusted close; it fails for every object
lacking `adjusted_close`, and for every object lacking `date`. -/
theorem c5_historic_quote_field_contract
    (fields fields2 fields3 : List (String × Json)) (s : String) (q : ℚ)
    (hdate : getField fields "date" = some (.str s))
    (hadj : getField fields "adjusted_close" = some (.num q))
    (ho : getField fields "open" = none ∨ ∃ r : ℚ, getField fields "open" = some (.num r))
    (hh : getField fields "high" = none ∨ ∃ r : ℚ, getField fields "high" = some (.num r))
    (hl : getField fields "low" = none ∨ ∃ r : ℚ, getField fields "low" = some (.num r))
    (hc : getField fields "close" = none ∨ ∃ r : ℚ, getField fields "close" = some (.num r))
    (hv : getField fields "volume" = none ∨ ∃ n : Nat, getField fields "volume" = some (.num n))
    (h2 : getField fields2 "adjusted_close" = none)
    (h3 : getField fields3 "date" = none) :
    (∃ hq : HistoricQuote, HistoricQuote.from_value (.obj fields) = .ok hq
        ∧ hq.date = s ∧ hq.adjusted_close = q)
  ∧ (∃ e, HistoricQuote.from_value (.obj fields2) = .error e)
  ∧ (∃ e, HistoricQuote.from_value (.obj fields3) = .error e) := by
  refine ⟨?_, ?_, ?_⟩
  · obtain ⟨o1, ho1⟩ := decOpt_f64_ok fields "open" ho
    obtain ⟨o2, ho2⟩ := decOpt_f64_ok fields "high" hh
    obtain ⟨o3, ho3⟩ := decOpt_f64_ok fields "low" hl
    obtain ⟨o4, ho4⟩ := decOpt_f64_ok fields "close" hc
    obtain ⟨ov, hov⟩ := decOpt_unsigned_ok fields "volume" hv
    refine ⟨⟨s, o1, o2, o3, o4, q, ov⟩, ?_, rfl, rfl⟩
    simp [HistoricQuote.from_value, decReq, hdate, hadj, decString, decF64,
      ho1, ho2, ho3, ho4, hov, eod_ok_bind, pure, Except.pure]
  · unfold HistoricQuote.from_value
    apply eod_exists_error_bind; intro date _
    apply eod_exists_error_bind; intro o _
    apply eod_exists_error_bind; intro hi _
    apply eod_exists_error_bind; intro lo _
    apply eod_exists_error_bind; intro cl _
    refine ⟨"missing field adjusted_close", ?_⟩
    simp [decReq, h2, eod_error_bind]
  · refine ⟨"missing field date", ?_⟩
    simp [HistoricQuote.from_value, decReq, h3, eod_error_bind]

/-- C5 witness: a bare quote object with only `date` and
`adjusted_close`, an object missing `adjusted_close`, and an object
missing `date`. -/
theorem c5_historic_quote_field_contract_witness :
    (∃ hq : HistoricQuote,
        HistoricQuote.from_value
          (.obj [("date", .str "2020-01-02"), ("adjusted_close", .num 3)]) = .ok hq
        ∧ hq.date = "2020-01-02" ∧ hq.adjusted_close = 3)
  ∧ (∃ e, HistoricQuote.from_value
        (.obj [("date", .str "2020-01-02")]) = .error e)
  ∧ (∃ e, HistoricQuote.from_value
        (.obj [("adjusted_close", .num 3)]) = .error e) :=
  c5_historic_quote_field_contract
    [("date", .str "2020-01-02"), ("adjusted_close", .num 3)]
    [("date", .str "2020-01-02")] [("adjusted_close", .num 3)]
    "2020-01-02" 3 rfl rfl (Or.inl rfl) (Or.inl rfl) (Or.inl rfl)
    (Or.inl rfl) (Or.inl rfl) rfl rfl

/-- C6: URL construction is deterministic in the token and the call
arguments — two connectors constructed with the same token build
character-for-character identical URLs for identical inputs to each
of the three query methods. -/
theorem c6_url_construction_deterministic (t1 t2 ticker : String)
    (start end_ : NaiveDate) (h : t1 = t2) :
    (EodHistConnector.new t1).latest_quote_url ticker
      = (EodHistConnector.new t2).latest_quote_url ticker
  ∧ (EodHistConnector.new t1).quote_history_url ticker start end_
      = (EodHistConnector.new t2).quote_history_url ticker start end_
  ∧ (EodHistConnector.new t1).dividend_history_url ticker start
      = (EodHistConnector.new t2).dividend_history_url ticker start := by
  subst h
  exact ⟨rfl, rfl, rfl⟩

/-- C6 witness: two connectors built with the same concrete token. -/
theorem c6_url_construction_deterministic_witness :
    (EodHistConnector.new "tokenT").latest_quote_url "AAPL.US"
      = (EodHistConnector.new "tokenT").latest_quote_url "AAPL.US"
  ∧ (EodHistConnector.new "tokenT").quote_history_url "AAPL.US"
        ⟨2020, 1, 1⟩ ⟨2020, 1, 31⟩
      = (EodHistConnector.new "tokenT").quote_history_url "AAPL.US"
        ⟨2020, 1, 1⟩ ⟨2020, 1, 31⟩
  ∧ (EodHistConnector.new "tokenT").dividend_history_url "AAPL.US" ⟨2020, 1, 1⟩
      = (EodHistConnector.new "tokenT").dividend_history_url "AAPL.US" ⟨2020, 1, 1⟩ :=
  c6_url_construction_deterministic "tokenT" "tokenT" "AAPL.US"
    ⟨2020, 1, 1⟩ ⟨2020, 1, 31⟩ rfl

/-- C7: a 200 response whose body is the empty JSON array makes
`get_quote_history` return the empty sequence, not an error. -/
theorem c7_empty_array_gives_empty_history (token ticker : String)
    (start end_ : NaiveDate) (net : String → HttpResult)
    (h : net ((EodHistConnector.new token).quote_history_url ticker start end_)
          = .response 200 (.json (.arr []))) :
    (EodHistConnector.new token).get_quote_history net ticker start end_
      = .ok [] := by
  simp [EodHistConnector.get_quote_history, send_request, h, decVec,
    eod_ok_bind, List.mapM, List.mapM.loop, pure, Except.pure]

/-- C7 witness: a weekend range answered by `[]`. -/
theorem c7_empty_array_gives_empty_history_witness :
    (EodHistConnector.new "T").get_quote_history
        (fun _ => .response 200 (.json (.arr []))) "AAPL.US"
        ⟨2020, 1, 4⟩ ⟨2020, 1, 4⟩
      = .ok [] :=
  c7_empty_array_gives_empty_history "T" "AAPL.US" ⟨2020, 1, 4⟩ ⟨2020, 1, 4⟩
    (fun _ => .response 200 (.json (.arr []))) rfl

/-- C8: serde field-name mapping. For every choice of field values:
a `RealTimeQuote` deserializes from the object whose keys are the
Rust field names except `previousClose` (which populates
`previous_close`); the same object with key `previous_close` instead
fails (that required field is then missing); a `Dividend`
deserializes from the camelCase keys `declarationDate`,
`paymentDate`, `recordDate`, `unadjustedValue` (single-word fields
keep their names), and the same object with snake_case
`payment_date` fails. -/
theorem c8_serde_field_renames
    (code : String) (timestamp : Nat) (gmtoffset : Int)
    (o h l c : ℚ) (volume : Nat) (pc ch chp : ℚ)
    (currency date decl pay per rec : String) (uv v : ℚ) :
    RealTimeQuote.from_value (.obj
      [("code", .str code), ("timestamp", .num timestamp),
       ("gmtoffset", .num gmtoffset), ("open", .num o), ("high", .num h),
       ("low", .num l), ("close", .num c), ("volume", .num volume),
       ("previousClose", .num pc), ("change", .num ch), ("change_p", .num chp)])
      = .ok ⟨code, timestamp, gmtoffset, o, h, l, c, volume, pc, ch, chp⟩
  ∧ (∃ e, RealTimeQuote.from_value (.obj
      [("code", .str code), ("timestamp", .num timestamp),
       ("gmtoffset", .num gmtoffset), ("open", .num o), ("high", .num h),
       ("low", .num l), ("close", .num c), ("volume", .num volume),
       ("previous_close", .num pc), ("change", .num ch), ("change_p", .num chp)])
      = .error e)
  ∧ Dividend.from_value (.obj
      [("currency", .str currency), ("date", .str date),
       ("declarationDate", .str decl), ("paymentDate", .str pay),
       ("period", .str per), ("recordDate", .str rec),
       ("unadjustedValue", .num uv), ("value", .num v)])
      = .ok ⟨currency, date, some decl, pay, per, rec, uv, v⟩
  ∧ (∃ e, Dividend.from_value (.obj
      [("currency", .str currency), ("date", .str date),
       ("declarationDate", .str decl), ("payment_date", .str pay),
       ("period", .str per), ("recordDate", .str rec),
       ("unadjustedValue", .num uv), ("value", .num v)])
      = .error e) := by
  refine ⟨?_, ⟨"missing field previousClose", ?_⟩, ?_,
      ⟨"missing field paymentDate", ?_⟩⟩ <;>
    simp [RealTimeQuote.from_value, Dividend.from_value, decReq, decOpt,
      getField, List.find?, decString, decF64, decUnsigned, decSigned,
      eod_ok_bind, eod_error_bind, pure, Except.pure, Except.map]

/-- C9: for every token, ticker and start date, the URL built by
`get_dividend_history` is exactly the spec's open-ended template —
no `to` and no `period` parameter — with the start date zero-padded
as `YYYY-MM-DD` (checked on 2020-01-05). -/
theorem c9_dividend_url_matches_template (token ticker : String)
    (start : NaiveDate) :
    (EodHistConnector.new token).dividend_history_url ticker start
      = spec_dividend_history_url token ticker start
  ∧ (NaiveDate.mk 2020 1 5).format_ymd = "2020-01-05" :=
  ⟨rfl, rfl⟩

/-- C10: ticker and token are interpolated verbatim into all three
request URLs — each URL is the plain concatenation of fixed literals
with the unmodified ticker and token strings, with no percent-encoding
and no validation — so URL-significant characters pass through; the
last conjunct shows a ticker containing `&` and `?` landing unescaped
inside the URL and so restructuring the query string. -/
theorem c10_no_sanitisation_verbatim_interpolation (token ticker : String)
    (start end_ : NaiveDate) :
    (EodHistConnector.new token).latest_quote_url ticker
      = "https://eodhistoricaldata.com/api/real-time/" ++ ticker ++
        "?api_token=" ++ token ++ "&fmt=json"
  ∧ (EodHistConnector.new token).quote_history_url ticker start end_
      = "https://eodhistoricaldata.com/api/eod/" ++ ticker ++ "?from=" ++
        start.format_ymd ++ "&to=" ++ end_.format_ymd ++ "&api_token=" ++
        token ++ "&period=d&fmt=json"
  ∧ (EodHistConnector.new token).dividend_history_url ticker start
      = "https://eodhistoricaldata.com/api/div/" ++ ticker ++ "?from=" ++
        start.format_ymd ++ "&api_token=" ++ token ++ "&fmt=json"
  ∧ (EodHistConnector.new "T").latest_quote_url "X?a=1&b=2"
      = "https://eodhistoricaldata.com/api/real-time/X?a=1&b=2?api_token=T&fmt=json" :=
  ⟨rfl, rfl, rfl, rfl⟩

end EodApi
